import Mathlib

/-!
Verification of the n8n SSO/SAML authentication-method core, the
collaboration message type guards, and the controller middleware
decorator, as described by the repository specification.

The SAML authentication-method switching logic (store, gate,
endpoint-permission policy, login notifier) is exercised by the
repository's integration test `sso.api.test.ts`, but its implementation
(`ssoHelpers`, `SamlService`, the SAML controller) is not among the
provided source files; those components are modelled from the spec.
The collaboration type guards and the `Middleware` decorator are
embedded directly from their source files.
-/

namespace N8n

/-- The instance-wide authentication method; enumerated value from the
data model (spec section 3): one of email, ldap, saml. -/
inductive AuthenticationMethod where
  | email
  | ldap
  | saml
deriving DecidableEq, Repr

/-- Modelled from the spec: the baseline (non-SSO, password-based)
authentication method, "email" (spec glossary and section 4.2). -/
def baselineMethod : AuthenticationMethod := .email

/-- Modelled from the spec: the error taxonomy of the SSO Configuration
Gate (spec section 4.2); the implementation (`ssoHelpers` /
`setSamlLoginEnabled`) is not among the provided sources. -/
inductive GateError where
  | IncompatibleCurrentMethod
deriving DecidableEq, Repr

/-- Modelled from the spec: `enable(method)` of the SSO Configuration
Gate (spec section 4.2), over the Authentication Method Store state.
Enabling a non-baseline method requires the store's current value to
equal the baseline method; disabling (returning to baseline) has no
precondition. On success the new store value is returned. -/
def Gate.enable (m : AuthenticationMethod) (s : AuthenticationMethod) :
    Except GateError AuthenticationMethod :=
  if m = baselineMethod then
    Except.ok baselineMethod
  else if s = baselineMethod then
    Except.ok m
  else
    Except.error GateError.IncompatibleCurrentMethod

/-- Modelled from the spec: one configuration change against the store.
On success the store is updated (spec section 4.2, side effect on
success); a failed call leaves the store untouched (spec section 7:
configuration-change failures never leave the store partially updated). -/
def runEnable (m : AuthenticationMethod) (s : AuthenticationMethod) :
    Except GateError Unit × AuthenticationMethod :=
  match Gate.enable m s with
  | Except.ok s2 => (Except.ok (), s2)
  | Except.error e => (Except.error e, s)

/-- Modelled from the spec: the HTTP status under which each Gate error
is reported to the caller (spec sections 4.2, 6 and 7:
`IncompatibleCurrentMethod` is surfaced as a 500 server-state error). -/
def GateError.httpStatus : GateError → Nat
  | GateError.IncompatibleCurrentMethod => 500

/-- An HTTP status code in the server-error class (5xx). -/
def isServerError (code : Nat) : Bool :=
  500 ≤ code && code < 600

/-- An HTTP status code in the client-error class (4xx). -/
def isClientError (code : Nat) : Bool :=
  400 ≤ code && code < 500

/-- A caller's privilege tier, attached to each inbound request
(spec section 3). -/
inductive Role where
  | owner
  | member
  | unauthenticated
deriving DecidableEq, Repr

/-- The logical SAML-related endpoints of the permission table
(spec section 4.3). -/
inductive Endpoint where
  | metadata
  | configGet
  | configPost
  | configToggle
  | acs
  | initSSO
  | configTest
deriving DecidableEq, Repr

/-- Modelled from the spec: the Endpoint Permission Policy, a pure
function over the static (Role, endpoint) table of spec section 4.3;
the controller-layer implementation enforcing it is not among the
provided sources. -/
def isAllowed (r : Role) (e : Endpoint) : Bool :=
  match e, r with
  | Endpoint.metadata, _ => true
  | Endpoint.configGet, Role.owner => true
  | Endpoint.configGet, Role.member => true
  | Endpoint.configGet, Role.unauthenticated => false
  | Endpoint.configPost, Role.owner => true
  | Endpoint.configPost, _ => false
  | Endpoint.configToggle, Role.owner => true
  | Endpoint.configToggle, _ => false
  | Endpoint.acs, _ => true
  | Endpoint.initSSO, _ => true
  | Endpoint.configTest, Role.owner => true
  | Endpoint.configTest, _ => false

/-- An HTTP response as observed by the caller: a status code and a
body. -/
structure HttpResponse where
  status : Nat
  body : String
deriving DecidableEq, Repr

/-- The fixed failure message of the assertion-consumer endpoint
(spec section 7). -/
def samlFailureMessage : String := "SAML Authentication failed"

/-- A user record, as resolved by a successful external assertion
(fields from the `SamlUserAttributes` shape in the test). -/
structure User where
  email : String
  firstName : String
  lastName : String
deriving DecidableEq, Repr

/-- The attributes extracted from an external SAML assertion
(`SamlUserAttributes` in the test file). -/
structure SamlUserAttributes where
  email : String
  firstName : String
  lastName : String
  userPrincipalName : String
deriving DecidableEq, Repr

/-- The transient per-login-attempt outcome (spec section 3): either a
success carrying the resolved user and method, or a failure carrying an
identifier (not a full user record) with an optional reason. -/
inductive LoginOutcome where
  | Success (user : User) (method : AuthenticationMethod)
  | Failure (identifier : String) (method : AuthenticationMethod)
      (reason : Option String)
deriving DecidableEq, Repr

/-- Modelled from the spec: processing of one inbound assertion at the
acs endpoint (spec sections 4.4 and 8, property 6; `SamlService` and
the acs handler are not among the provided sources). The assertion is
reduced by a collaborator to an optional authenticated user plus the
assertion's attributes; the handler emits exactly one Login Outcome
notification and produces the caller-visible response: a redirect (302)
on success, an unauthorized response with the fixed failure message on
failure. A missing or invalid assertion resolves no user. -/
def processAcs (authenticatedUser : Option User)
    (attributes : SamlUserAttributes) (reason : Option String) :
    List LoginOutcome × HttpResponse :=
  match authenticatedUser with
  | some u =>
      ([LoginOutcome.Success u AuthenticationMethod.saml],
        { status := 302, body := "" })
  | none =>
      ([LoginOutcome.Failure attributes.userPrincipalName
          AuthenticationMethod.saml reason],
        { status := 401, body := samlFailureMessage })

/-- A JavaScript runtime value, as far as the collaboration type guards
can observe one: null, undefined, primitives, arrays and plain objects
(an object is a finite association of string keys to values; keys are
unique, lookup finds the first binding). -/
inductive JsValue where
  | null
  | undef
  | bool (b : Bool)
  | num (n : Int)
  | str (s : String)
  | arr (elems : List JsValue)
  | obj (fields : List (String × JsValue))

/-- Property lookup on an object's field list (`msg.type`): the first
binding for the key, if any. -/
def getField (key : String) : List (String × JsValue) → Option JsValue
  | [] => none
  | (k, v) :: rest => if k = key then some v else getField key rest

/-- JavaScript `typeof v === 'object'`: true for plain objects, arrays
and (a JavaScript quirk) null. -/
def typeofIsObject : JsValue → Bool
  | JsValue.null => true
  | JsValue.arr _ => true
  | JsValue.obj _ => true
  | _ => false

/-- JavaScript `'type' in msg` on a value already known to be a non-null
object: key presence. Arrays carry no `type` property in this model. -/
def hasTypeProp : JsValue → Bool
  | JsValue.obj fields => (getField "type" fields).isSome
  | _ => false

/-- Property access `msg.type`: the bound value on objects, undefined
otherwise. -/
def getTypeProp : JsValue → JsValue
  | JsValue.obj fields =>
      match getField "type" fields with
      | some v => v
      | none => JsValue.undef
  | _ => JsValue.undef

/-- JavaScript strict equality of a value against a string literal
(`msg.type === 'workflowOpened'`): true exactly for the equal string. -/
def strictEqStr (tag : String) : JsValue → Bool
  | JsValue.str s => s = tag
  | _ => false

/-- JavaScript `msg === null`. -/
def isNullValue : JsValue → Bool
  | JsValue.null => true
  | _ => false

/-- The `isWorkflowMessage` helper guard from the source:
`typeof msg === 'object' && msg !== null && 'type' in msg`. -/
def isWorkflowMessage (msg : JsValue) : Bool :=
  typeofIsObject msg && !isNullValue msg && hasTypeProp msg

/-- The `isWorkflowOpenedMessage` type guard from the source:
`isWorkflowMessage(msg) && msg.type === 'workflowOpened'`. -/
def isWorkflowOpenedMessage (msg : JsValue) : Bool :=
  isWorkflowMessage msg && strictEqStr "workflowOpened" (getTypeProp msg)

/-- The `isWorkflowClosedMessage` type guard from the source. -/
def isWorkflowClosedMessage (msg : JsValue) : Bool :=
  isWorkflowMessage msg && strictEqStr "workflowClosed" (getTypeProp msg)

/-- The `isWorkflowElementFocusedMessage` type guard from the source. -/
def isWorkflowElementFocusedMessage (msg : JsValue) : Bool :=
  isWorkflowMessage msg &&
    strictEqStr "workflowElementFocused" (getTypeProp msg)

/-- The claim's characterization, following its words: `msg` is a
non-null object whose `type` property equals the given tag. -/
def isTaggedObject (tag : String) (msg : JsValue) : Bool :=
  match msg with
  | JsValue.obj fields =>
      match getField "type" fields with
      | some (JsValue.str s) => s = tag
      | _ => false
  | _ => false

/-- One entry of the `CONTROLLER_MIDDLEWARES` metadata list
(`MiddlewareMetadata` in the decorators module). -/
structure MiddlewareMetadata where
  handlerName : String
deriving DecidableEq, Repr

/-- The `Middleware()` decorator body from
`packages/cli/src/decorators/Middleware.ts`: read the class's current
`CONTROLLER_MIDDLEWARES` metadata (absent metadata read as the empty
list), push an entry for the decorated handler's name, and store the
result back. The metadata slot is the explicit state here. -/
def Middleware (handlerName : String)
    (state : Option (List MiddlewareMetadata)) :
    Option (List MiddlewareMetadata) :=
  let middlewares := state.getD []
  some (middlewares ++ [{ handlerName := handlerName }])

/-- A sequence of `Middleware()` applications to a class's methods, in
application order, starting from a class with no metadata. -/
def applyMiddlewareSeq (handlerNames : List String) :
    Option (List MiddlewareMetadata) :=
  handlerNames.foldl (fun st n => Middleware n st) none

/-- Each of the three type guards is the generic helper applied to its
tag; this lemma characterizes that pattern once for all tags. -/
theorem guard_eq_taggedObject (tag : String) (msg : JsValue) :
    (isWorkflowMessage msg && strictEqStr tag (getTypeProp msg)) =
      isTaggedObject tag msg := by
  cases msg with
  | obj fields =>
      cases h : getField "type" fields with
      | none =>
          simp [isWorkflowMessage, typeofIsObject, isNullValue, hasTypeProp,
            getTypeProp, isTaggedObject, h]
      | some v =>
          cases v <;>
            simp [isWorkflowMessage, typeofIsObject, isNullValue, hasTypeProp,
              getTypeProp, strictEqStr, isTaggedObject, h]
  | _ =>
      simp [isWorkflowMessage, typeofIsObject, isNullValue, hasTypeProp,
        getTypeProp, strictEqStr, isTaggedObject]

/-- Folding the middleware decorator from an existing metadata list
appends one entry per decorated handler, in order. -/
theorem middleware_foldl_from_some (names : List String)
    (acc : List MiddlewareMetadata) :
    names.foldl (fun st n => Middleware n st) (some acc) =
      some (acc ++ names.map fun n => { handlerName := n }) := by
  induction names generalizing acc with
  | nil => simp
  | cons n rest ih =>
      rw [List.foldl_cons,
        show Middleware n (some acc) =
          some (acc ++ [({ handlerName := n } : MiddlewareMetadata)]) from rfl,
        ih]
      simp

end N8n

namespace N8n

/-- C1: for every non-baseline authentication method `m`, if the
Authentication Method Store's current value is not the baseline method
"email", then `enable(m)` fails with
`GateError.IncompatibleCurrentMethod`, and the failure is reported to
the caller as HTTP 500, a server error and not a client error. -/
theorem enable_nonBaseline_fails_as_server_error
    (m s : AuthenticationMethod)
    (hm : m ≠ baselineMethod) (hs : s ≠ baselineMethod) :
    Gate.enable m s =
        Except.error GateError.IncompatibleCurrentMethod ∧
      GateError.httpStatus GateError.IncompatibleCurrentMethod = 500 ∧
      isServerError
        (GateError.httpStatus GateError.IncompatibleCurrentMethod) = true ∧
      isClientError
        (GateError.httpStatus GateError.IncompatibleCurrentMethod) = false := by
  refine ⟨?_, by decide, by decide, by decide⟩
  simp [Gate.enable, hm, hs]

/-- Witness for C1 at `m = saml`, `s = ldap`. -/
theorem enable_nonBaseline_fails_as_server_error_witness :
    AuthenticationMethod.saml ≠ baselineMethod ∧
      AuthenticationMethod.ldap ≠ baselineMethod ∧
      (Gate.enable AuthenticationMethod.saml AuthenticationMethod.ldap =
          Except.error GateError.IncompatibleCurrentMethod ∧
        GateError.httpStatus GateError.IncompatibleCurrentMethod = 500 ∧
        isServerError
          (GateError.httpStatus GateError.IncompatibleCurrentMethod) = true ∧
        isClientError
          (GateError.httpStatus GateError.IncompatibleCurrentMethod)
            = false) :=
  ⟨by decide, by decide,
    enable_nonBaseline_fails_as_server_error
      AuthenticationMethod.saml AuthenticationMethod.ldap
      (by decide) (by decide)⟩

/-- C2: with the store holding a non-baseline method `m1`, a failed
`enable(m2)` for a different non-baseline method `m2` fails with
`IncompatibleCurrentMethod` and leaves the store unchanged: the store
still holds `m1` afterwards. -/
theorem failed_enable_leaves_store_unchanged
    (m1 m2 : AuthenticationMethod)
    (h1 : m1 ≠ baselineMethod) (h2 : m2 ≠ baselineMethod)
    (_hne : m2 ≠ m1) :
    (runEnable m2 m1).1 =
        Except.error GateError.IncompatibleCurrentMethod ∧
      (runEnable m2 m1).2 = m1 := by
  simp [runEnable, Gate.enable, h1, h2]

/-- Witness for C2 at `m1 = ldap`, `m2 = saml`. -/
theorem failed_enable_leaves_store_unchanged_witness :
    AuthenticationMethod.ldap ≠ baselineMethod ∧
      AuthenticationMethod.saml ≠ baselineMethod ∧
      AuthenticationMethod.saml ≠ AuthenticationMethod.ldap ∧
      ((runEnable AuthenticationMethod.saml AuthenticationMethod.ldap).1 =
          Except.error GateError.IncompatibleCurrentMethod ∧
        (runEnable AuthenticationMethod.saml
          AuthenticationMethod.ldap).2 = AuthenticationMethod.ldap) :=
  ⟨by decide, by decide, by decide,
    failed_enable_leaves_store_unchanged
      AuthenticationMethod.ldap AuthenticationMethod.saml
      (by decide) (by decide) (by decide)⟩

/-- C3: starting at the baseline, `enable(saml)` succeeds and the store
reads `saml`; then `enable(email)` (disable) succeeds and the store
reads `email`; then `enable(saml)` succeeds again and the store reads
`saml` — the toggle round-trips between saml and email. -/
theorem toggle_round_trip :
    runEnable AuthenticationMethod.saml baselineMethod =
        (Except.ok (), AuthenticationMethod.saml) ∧
      runEnable AuthenticationMethod.email
          (runEnable AuthenticationMethod.saml baselineMethod).2 =
        (Except.ok (), AuthenticationMethod.email) ∧
      runEnable AuthenticationMethod.saml
          (runEnable AuthenticationMethod.email
            (runEnable AuthenticationMethod.saml baselineMethod).2).2 =
        (Except.ok (), AuthenticationMethod.saml) :=
  ⟨rfl, rfl, rfl⟩

/-- C4: the `metadata` and `init-sso` endpoints admit every role,
including the unauthenticated one. -/
theorem public_endpoints_admit_every_role (r : Role) :
    isAllowed r Endpoint.metadata = true ∧
      isAllowed r Endpoint.initSSO = true := by
  cases r <;> decide

/-- C5: no non-owner role may call the `config-toggle` or `config-test`
endpoints. -/
theorem owner_only_endpoints_deny_non_owners (r : Role)
    (h : r ≠ Role.owner) :
    isAllowed r Endpoint.configToggle = false ∧
      isAllowed r Endpoint.configTest = false := by
  cases r with
  | owner => exact absurd rfl h
  | member => decide
  | unauthenticated => decide

/-- Witness for C5 at `r = member`. -/
theorem owner_only_endpoints_deny_non_owners_witness :
    Role.member ≠ Role.owner ∧
      (isAllowed Role.member Endpoint.configToggle = false ∧
        isAllowed Role.member Endpoint.configTest = false) :=
  ⟨by decide, owner_only_endpoints_deny_non_owners Role.member (by decide)⟩

/-- C6: the acs endpoint is reachable by every role, and a request
whose assertion resolves no user (missing or invalid assertion) yields
a 401 response carrying the fixed message "SAML Authentication failed",
not a 403 permission denial. -/
theorem acs_reachable_and_fails_unauthorized (r : Role)
    (attrs : SamlUserAttributes) (reason : Option String) :
    isAllowed r Endpoint.acs = true ∧
      (processAcs none attrs reason).2.status = 401 ∧
      (processAcs none attrs reason).2.body = samlFailureMessage ∧
      (processAcs none attrs reason).2.status ≠ 403 := by
  cases r <;> simp [isAllowed, processAcs]

/-- C7: every processed login attempt emits exactly one Login Outcome
notification; on success it carries the resolved user and the saml
method, on failure it carries the assertion's principal-name identifier
with the method and the optional reason, and the failure response is a
401 unauthorized status while success redirects. -/
theorem one_notification_per_login_attempt (maybeUser : Option User)
    (attrs : SamlUserAttributes) (reason : Option String) :
    (processAcs maybeUser attrs reason).1.length = 1 ∧
      (processAcs maybeUser attrs reason).1 =
        [match maybeUser with
         | some u => LoginOutcome.Success u AuthenticationMethod.saml
         | none =>
            LoginOutcome.Failure attrs.userPrincipalName
              AuthenticationMethod.saml reason] ∧
      (processAcs maybeUser attrs reason).2.status =
        (match maybeUser with
         | some _ => 302
         | none => 401) := by
  cases maybeUser <;> simp [processAcs]

/-- C8: disabling is idempotent and unconditional: from the baseline
state, two consecutive disable calls both succeed and each leaves the
store at the baseline; moreover disable succeeds from every state. -/
theorem disable_idempotent_no_precondition (s : AuthenticationMethod) :
    runEnable baselineMethod baselineMethod =
        (Except.ok (), baselineMethod) ∧
      runEnable baselineMethod
          (runEnable baselineMethod baselineMethod).2 =
        (Except.ok (), baselineMethod) ∧
      (runEnable baselineMethod s).1 = Except.ok () := by
  cases s <;> exact ⟨rfl, rfl, rfl⟩

/-- C9: each collaboration type guard returns true exactly when the
value is a non-null object whose `type` property is the corresponding
tag string; in particular `isWorkflowOpenedMessage` accepts an object
that lacks the `workflowId` field its certified type requires. -/
theorem type_guards_check_only_the_tag (msg : JsValue) :
    (isWorkflowOpenedMessage msg =
        isTaggedObject "workflowOpened" msg ∧
      isWorkflowClosedMessage msg =
        isTaggedObject "workflowClosed" msg ∧
      isWorkflowElementFocusedMessage msg =
        isTaggedObject "workflowElementFocused" msg) ∧
      isWorkflowOpenedMessage
        (JsValue.obj [("type", JsValue.str "workflowOpened")]) = true := by
  refine ⟨⟨?_, ?_, ?_⟩, rfl⟩
  · exact guard_eq_taggedObject "workflowOpened" msg
  · exact guard_eq_taggedObject "workflowClosed" msg
  · exact guard_eq_taggedObject "workflowElementFocused" msg

/-- C10: a sequence of `Middleware()` applications accumulates exactly
the decorated handler names in application order, starting from the
empty list when no metadata exists; each single application appends one
entry to whatever was registered before. -/
theorem middleware_metadata_accumulates (handlerNames : List String) :
    (applyMiddlewareSeq handlerNames).getD [] =
        (handlerNames.map fun n =>
          ({ handlerName := n } : MiddlewareMetadata)) ∧
      ∀ st n, Middleware n st =
        some (st.getD [] ++ [{ handlerName := n }]) := by
  constructor
  · cases handlerNames with
    | nil => rfl
    | cons n rest =>
        show (rest.foldl (fun st n => Middleware n st)
          (Middleware n none)).getD [] = _
        rw [show Middleware n none =
            some ([] ++ [({ handlerName := n } : MiddlewareMetadata)]) from rfl,
          middleware_foldl_from_some]
        simp
  · intro st n
    rfl

end N8n
